import Mathlib

/-!
Verification development for a minimal TCP CRUD server over a `users`
table (`src/main.rs`).  The Rust source is shallowly embedded: pure
string manipulation is translated to executable Lean functions over
`List Char` / `String`; the external collaborators (Postgres store,
serde JSON decoding, bcrypt hashing) are modelled as explicit
parameters (a pure `DB` state plus booleans for connection / statement
success, a decoder function, a hash function).  A handler result of
`none` models a Rust panic (an `unwrap` failure) escaping the handler.
-/

/-- Embeds the Rust `struct User` (`id: Option<i32>`, `name`, `email`,
`password`). -/
structure User where
  id : Option Int
  name : String
  email : String
  password : String
deriving DecidableEq

/-- Embeds `const OK_RESPONSE` from `src/main.rs`. -/
def OK_RESPONSE : String := "HTTP/1.1 200 OK\r\nContent-Type: application/json\r\n\r\n"

/-- Embeds `const NOT_FOUND` from `src/main.rs`. -/
def NOT_FOUND : String := "HTTP/1.1 404 NOT FOUND\r\n"

/-- Embeds `const INTERNAL_SERVER_ERROR` from `src/main.rs`. -/
def INTERNAL_SERVER_ERROR : String := "HTTP/1.1 500 INTERNAL SERVER ERROR\r\n"

/-- Splitting a character list at every character satisfying `p`,
keeping empty pieces; models Rust `str::split` (for a one-character
separator, via `p := (· == sep)`).  Always returns a non-empty list;
`splitP p [] = [[]]`, matching Rust's `"".split(sep) == [""]`. -/
def splitP (p : Char → Bool) : List Char → List (List Char)
  | [] => [[]]
  | c :: cs => if p c then [] :: splitP p cs else (splitP p cs).modifyHead (c :: ·)

/-- Embeds `fn get_id`: `request.split("/").nth(2).unwrap_or_default()
.split_whitespace().next().unwrap_or_default()`.  Rust's
`split_whitespace` yields the maximal non-whitespace chunks, so its
`.next()` is the head of the whitespace-split pieces after discarding
empty ones. -/
def get_id (request : String) : String :=
  let seg := (splitP (· == '/') request.data).getD 2 []
  ⟨((splitP Char.isWhitespace seg).filter (· ≠ [])).headD []⟩

/-- The Identifier Extractor as worded by the spec: take the third
slash-delimited segment and then "the portion of that segment up to the
first whitespace". -/
def get_id_spec (request : String) : String :=
  let seg := (splitP (· == '/') request.data).getD 2 []
  ⟨seg.takeWhile (fun c => !c.isWhitespace)⟩

/-- Digit-string parser used by `parseI32`: `none` unless the list is
non-empty and all ASCII digits. -/
def parseDigitsAux : List Char → Nat → Option Nat
  | [], acc => some acc
  | c :: cs, acc =>
    if '0' ≤ c ∧ c ≤ '9' then parseDigitsAux cs (acc * 10 + (c.toNat - 48)) else none

/-- Parses a non-empty all-digit list, `none` otherwise. -/
def parseDigits : List Char → Option Nat
  | [] => none
  | c :: cs => parseDigitsAux (c :: cs) 0

/-- Embeds Rust `str::parse::<i32>()`: optional sign, at least one
ASCII digit, value within the `i32` range. -/
def parseI32 (s : String) : Option Int :=
  match s.data with
  | '+' :: ds => (parseDigits ds).bind fun n =>
      if n ≤ 2147483647 then some (Int.ofNat n) else none
  | '-' :: ds => (parseDigits ds).bind fun n =>
      if n ≤ 2147483648 then some (-(Int.ofNat n)) else none
  | ds => (parseDigits ds).bind fun n =>
      if n ≤ 2147483647 then some (Int.ofNat n) else none

/-- JSON string escaping as performed by the serializer (`serde_json`):
quote, backslash, and the control characters. -/
def jsonEscapeChar (c : Char) : List Char :=
  if c = '"' then ['\\', '"']
  else if c = '\\' then ['\\', '\\']
  else if c = '\n' then ['\\', 'n']
  else if c = '\r' then ['\\', 'r']
  else if c = '\t' then ['\\', 't']
  else if c.toNat = 8 then ['\\', 'b']
  else if c.toNat = 12 then ['\\', 'f']
  else if c.toNat < 32 then
    ['\\', 'u', '0', '0',
      (Nat.digitChar (c.toNat / 16)), (Nat.digitChar (c.toNat % 16))]
  else [c]

/-- JSON escaping of a whole string. -/
def jsonEscape (s : String) : String :=
  ⟨(s.data.map jsonEscapeChar).flatten⟩

/-- Embeds `serde_json::to_string(&user)` for the `User` struct: fields
in declaration order, `Option` as `null` / bare number. -/
def userToJson (u : User) : String :=
  "\x7b\"id\":" ++ (match u.id with | none => "null" | some i => toString i)
    ++ ",\"name\":\"" ++ jsonEscape u.name
    ++ "\",\"email\":\"" ++ jsonEscape u.email
    ++ "\",\"password\":\"" ++ jsonEscape u.password ++ "\"\x7d"

/-- Comma-joining for the JSON array serializer. -/
def joinComma : List String → String
  | [] => ""
  | [s] => s
  | s :: rest => s ++ "," ++ joinComma rest

/-- A persisted row of the `users` table: the `id` column is
`SERIAL PRIMARY KEY` (non-null), the text columns are `NOT NULL`. -/
structure Row where
  id : Int
  name : String
  email : String
  password : String
deriving DecidableEq

/-- Reading a row back as a `User` (`row.get(0)` into `Option<i32>`
wraps the non-null id in `Some`). -/
def rowToUser (r : Row) : User :=
  { id := some r.id, name := r.name, email := r.email, password := r.password }

/-- Embeds `serde_json::to_string(&users)` for the list-all handler. -/
def rowsToJson (rows : List Row) : String :=
  "[" ++ joinComma (rows.map (fun r => userToJson (rowToUser r))) ++ "]"

/-- The store state: the rows of the `users` table plus the next value
of the `SERIAL` id sequence. -/
structure DB where
  rows : List Row
  nextId : Int
deriving DecidableEq

/-- The empty store with the id sequence at 1 (a fresh table). -/
def db0 : DB := { rows := [], nextId := 1 }

/-- Embeds `client.query_one("SELECT * FROM users WHERE id = $1")`:
succeeds exactly when the table holds exactly one row with that id. -/
def queryOne (db : DB) (i : Int) : Option Row :=
  match db.rows.filter (fun r => r.id == i) with
  | [r] => some r
  | _ => none

/-- Embeds the `INSERT INTO users (name, email, password)` statement:
the store assigns `nextId` and advances the sequence. -/
def insertUser (db : DB) (name email password : String) : DB :=
  { rows := db.rows ++ [{ id := db.nextId, name := name, email := email, password := password }],
    nextId := db.nextId + 1 }

/-- Embeds the `UPDATE users SET name, email, password WHERE id`
statement: returns the new store and the affected-row count. -/
def updateUser (db : DB) (i : Int) (name email password : String) : DB × Nat :=
  ({ db with rows := db.rows.map (fun r =>
      if r.id == i then { id := r.id, name := name, email := email, password := password } else r) },
   (db.rows.filter (fun r => r.id == i)).length)

/-- Embeds the `DELETE FROM users WHERE id` statement: returns the new
store and the affected-row count. -/
def deleteUser (db : DB) (i : Int) : DB × Nat :=
  ({ db with rows := db.rows.filter (fun r => !(r.id == i)) },
   (db.rows.filter (fun r => r.id == i)).length)

/-- Fuel-driven worker for `splitOnSeq` (structural recursion on the
fuel, which is initialised to the input length). -/
def splitOnSeqAux (sep : List Char) : Nat → List Char → List Char → List (List Char)
  | _, [], acc => [acc.reverse]
  | 0, _ :: _, acc => [acc.reverse]
  | fuel + 1, c :: cs, acc =>
    if sep.isPrefixOf (c :: cs) then
      acc.reverse :: splitOnSeqAux sep fuel ((c :: cs).drop sep.length) []
    else
      splitOnSeqAux sep fuel cs (c :: acc)

/-- Models Rust `str::split` with a multi-character separator
(leftmost, non-overlapping). -/
def splitOnSeq (sep : List Char) (l : List Char) : List (List Char) :=
  splitOnSeqAux sep l.length l []

/-- Embeds `request.split("\r\n\r\n").last().unwrap_or_default()`: the
body text of the request. -/
def requestBody (request : String) : String :=
  ⟨(splitOnSeq "\r\n\r\n".data request.data).getLastD []⟩

/-- Embeds `fn get_user_request_body`; `dec` stands for the external
`serde_json::from_str::<User>` capability. -/
def get_user_request_body (dec : String → Option User) (request : String) : Option User :=
  dec (requestBody request)

/-- Embeds `fn handle_get_all_users_request`.  `connOk` is the outcome
of `Client::connect`; `qOk` the outcome of the `SELECT * FROM users`
call, whose failure hits `.unwrap()` and panics (`none`). -/
def handle_get_all_users_request (connOk qOk : Bool) (db : DB) : Option (String × String) :=
  if connOk then
    if qOk then some (OK_RESPONSE, rowsToJson db.rows)
    else none
  else some (INTERNAL_SERVER_ERROR, "Error")

/-- Embeds `fn handle_get_request`.  The id parse is `.unwrap()`ed
before the match, so a parse failure panics (`none`); `query_one`
failure (no unique row, or `qOk = false`) is converted to 404. -/
def handle_get_request (request : String) (connOk qOk : Bool) (db : DB) : Option (String × String) :=
  match parseI32 (get_id request) with
  | none => none
  | some i =>
    if connOk then
      match (if qOk then queryOne db i else none) with
      | some row => some (OK_RESPONSE, userToJson (rowToUser row))
      | none => some (NOT_FOUND, "User not found")
    else some (INTERNAL_SERVER_ERROR, "Error")

/-- Embeds `fn handle_post_request`: on decode + connect success the
`INSERT` is `.unwrap()`ed (failure panics), and the response body
serializes the decoded `user` value itself. -/
def handle_post_request (dec : String → Option User) (request : String)
    (connOk qOk : Bool) (db : DB) : Option (String × String) × DB :=
  match get_user_request_body dec request, connOk with
  | some user, true =>
    if qOk then
      (some (OK_RESPONSE, userToJson user), insertUser db user.name user.email user.password)
    else (none, db)
  | _, _ => (some (INTERNAL_SERVER_ERROR, "Error creating user"), db)

/-- Embeds `fn handle_put_request`: the id parse is `.unwrap()`ed first
(panic on failure); a password of byte length below 20 is replaced by
its bcrypt hash (`hash` stands for `bcrypt::hash` with the default
cost); the `UPDATE` is `.unwrap()`ed. -/
def handle_put_request (dec : String → Option User) (hash : String → String)
    (request : String) (connOk qOk : Bool) (db : DB) : Option (String × String) × DB :=
  match parseI32 (get_id request) with
  | none => (none, db)
  | some i =>
    match get_user_request_body dec request, connOk with
    | some user, true =>
      let password := if user.password.utf8ByteSize < 20 then hash user.password else user.password
      if qOk then
        (some (OK_RESPONSE, "User updated"), (updateUser db i user.name user.email password).1)
      else (none, db)
    | _, _ => (some (INTERNAL_SERVER_ERROR, "Error updating user"), db)

/-- Embeds `fn handle_delete_request`: id parse `.unwrap()`ed first;
the `DELETE` is `.unwrap()`ed; an affected count of 0 yields 404. -/
def handle_delete_request (request : String) (connOk qOk : Bool) (db : DB) :
    Option (String × String) × DB :=
  match parseI32 (get_id request) with
  | none => (none, db)
  | some i =>
    if connOk then
      if qOk then
        let res := deleteUser db i
        if res.2 == 0 then (some (NOT_FOUND, "User not found"), res.1)
        else (some (OK_RESPONSE, "User deleted"), res.1)
      else (none, db)
    else (some (INTERNAL_SERVER_ERROR, "Error deleting user"), db)

/-- The five routes plus the fallthrough of the dispatcher. -/
inductive Route where
  | listAll
  | getById
  | create
  | update
  | delete
  | notFound
deriving DecidableEq

/-- Embeds the guard chain of the `match &*request` in
`fn handle_client`, in the source's arm order. -/
def route_of (r : String) : Route :=
  if "GET /users".data.isPrefixOf r.data then Route.listAll
  else if "GET /users/".data.isPrefixOf r.data then Route.getById
  else if "POST /users".data.isPrefixOf r.data then Route.create
  else if "PUT /users/".data.isPrefixOf r.data then Route.update
  else if "DELETE /users/".data.isPrefixOf r.data then Route.delete
  else Route.notFound

/-- Embeds the response assembly of `fn handle_client`: dispatch, then
`format!("\x7b\x7d\x7b\x7d", status_line, content)` written to the
socket.  `none` models a panic inside the invoked handler. -/
def handle_client_response (dec : String → Option User) (hash : String → String)
    (request : String) (connOk qOk : Bool) (db : DB) : Option String × DB :=
  match route_of request with
  | Route.listAll =>
    ((handle_get_all_users_request connOk qOk db).map (fun p => p.1 ++ p.2), db)
  | Route.getById =>
    ((handle_get_request request connOk qOk db).map (fun p => p.1 ++ p.2), db)
  | Route.create =>
    let res := handle_post_request dec request connOk qOk db
    (res.1.map (fun p => p.1 ++ p.2), res.2)
  | Route.update =>
    let res := handle_put_request dec hash request connOk qOk db
    (res.1.map (fun p => p.1 ++ p.2), res.2)
  | Route.delete =>
    let res := handle_delete_request request connOk qOk db
    (res.1.map (fun p => p.1 ++ p.2), res.2)
  | Route.notFound => (some (NOT_FOUND ++ "Not Found"), db)

/-- Substring occurrence test (used to inspect the header constants). -/
def occursIn (pat s : String) : Bool :=
  s.data.tails.any (fun t => pat.data.isPrefixOf t)

/-- The Content-Type header text the spec says every status line
declares. -/
def ctJson : String := "Content-Type: application/json"

/-- The demo create payload body used in the concrete scenarios. -/
def demoBody : String := "\x7b\"name\":\"Ann\",\"email\":\"a@x.com\",\"password\":\"pw\"\x7d"

/-- The `User` value `serde_json::from_str` produces for `demoBody`
(`id` absent, hence `None`). -/
def demoUser : User := { id := none, name := "Ann", email := "a@x.com", password := "pw" }

/-- Models the external `serde_json::from_str::<User>` capability at
the demo payload: `demoBody` decodes to `demoUser`, everything else is
a decode error. -/
def demoDec : String → Option User :=
  fun s => if s = demoBody then some demoUser else none

/-- A concrete create request carrying the demo payload. -/
def demoPostReq : String := "POST /users HTTP/1.1\r\nHost: localhost\r\n\r\n" ++ demoBody

/-- The demo row with id 1 and its one-row store. -/
def rowAnn : Row := { id := 1, name := "Ann", email := "a@x.com", password := "pw" }

/-- A store holding exactly `rowAnn`, with the id sequence at 2. -/
def dbAnn : DB := { rows := [rowAnn], nextId := 2 }


/-! ### Helper lemmas about `splitP` -/

/-- `splitP` always yields at least one piece, and the first piece is
the leading run of characters not satisfying `p`. -/
theorem splitP_cons_head (p : Char → Bool) (l : List Char) :
    ∃ t, splitP p l = l.takeWhile (fun c => !p c) :: t := by
  induction l with
  | nil => exact ⟨[], rfl⟩
  | cons c cs ih =>
    obtain ⟨t, ht⟩ := ih
    by_cases h : p c = true
    · exact ⟨splitP p cs, by simp [splitP, h, List.takeWhile_cons]⟩
    · refine ⟨t, ?_⟩
      simp only [Bool.not_eq_true] at h
      simp [splitP, h, ht, List.takeWhile_cons]

/-- The first non-empty piece of `splitP p l` is the first maximal run
of non-`p` characters: drop the leading `p`-run, then take the non-`p`
run.  This is Rust's `split_whitespace().next().unwrap_or_default()`. -/
theorem splitP_firstToken (p : Char → Bool) (l : List Char) :
    ((splitP p l).filter (· ≠ [])).headD [] =
      (l.dropWhile p).takeWhile (fun c => !p c) := by
  induction l with
  | nil => rfl
  | cons c cs ih =>
    by_cases h : p c = true
    · simpa [splitP, h, List.dropWhile_cons] using ih
    · obtain ⟨t, ht⟩ := splitP_cons_head p (c :: cs)
      rw [ht]
      simp only [Bool.not_eq_true] at h
      simp [List.takeWhile_cons, List.dropWhile_cons, h]

/-! ### C9: the Identifier Extractor -/

/-- C9 counterexample: the extractor does not return "the portion of the
segment up to the first whitespace".  On `"GET /users/ HTTP/1.1"` the
third slash-delimited segment is `" HTTP"`; the portion up to the first
whitespace is `""`, but the code's `split_whitespace().next()` skips
the leading whitespace and yields `"HTTP"`. -/
theorem C9_counterexample :
    get_id "GET /users/ HTTP/1.1" = "HTTP" ∧
    get_id_spec "GET /users/ HTTP/1.1" = "" ∧
    get_id "GET /users/ HTTP/1.1" ≠ get_id_spec "GET /users/ HTTP/1.1" := by
  refine ⟨by decide, by decide, by decide⟩

/-- C9 (amended): for every input string, `get_id` returns the first
maximal whitespace-free chunk of the third slash-delimited segment
(leading whitespace is skipped, not truncated at), and the empty string
when the text has fewer than three slash-delimited segments or the
segment holds no non-whitespace character. -/
theorem C9_get_id_first_token (s : String) :
    get_id s =
      ⟨(((splitP (· == '/') s.data).getD 2 []).dropWhile Char.isWhitespace).takeWhile
        (fun c => !c.isWhitespace)⟩ :=
  congrArg String.mk (splitP_firstToken Char.isWhitespace _)

/-! ### C1: route dispatch order -/

/-- C1: every request text beginning with `"GET /users/"` also begins
with `"GET /users"`, and the dispatcher tests the shorter prefix first,
so such a request is dispatched to the list-all handler — the get-by-id
arm is unreachable, contrary to the claim. -/
theorem C1_get_by_id_shadowed (r : String)
    (h : "GET /users/".data.isPrefixOf r.data = true) :
    route_of r = Route.listAll := by
  have h2 : "GET /users".data.isPrefixOf r.data = true := by
    rw [List.isPrefixOf_iff_prefix] at h ⊢
    exact List.IsPrefix.trans ⟨"/".data, by decide⟩ h
  unfold route_of
  rw [h2]
  rfl

/-- C1 witness: the concrete get-by-id request is routed to list-all. -/
theorem C1_get_by_id_shadowed_witness :
    route_of "GET /users/1 HTTP/1.1" = Route.listAll :=
  C1_get_by_id_shadowed "GET /users/1 HTTP/1.1" (by decide)

/-! ### C7: unparsable id panics in get / update / delete -/

/-- C7: in the get, update and delete handlers a path id segment that
does not parse as an integer hits `.unwrap()` and panics (modelled as
`none`); it is not converted to any HTTP response. -/
theorem C7_unparsable_id_panics (dec : String → Option User) (hash : String → String)
    (req : String) (connOk qOk : Bool) (db : DB)
    (h : parseI32 (get_id req) = none) :
    handle_get_request req connOk qOk db = none ∧
    (handle_put_request dec hash req connOk qOk db).1 = none ∧
    (handle_delete_request req connOk qOk db).1 = none := by
  unfold handle_get_request handle_put_request handle_delete_request
  rw [h]
  exact ⟨rfl, rfl, rfl⟩

/-- C7 witness: at the concrete request `"PUT /users/abc HTTP/1.1"` the
extracted id `"abc"` does not parse and all three handlers panic. -/
theorem C7_unparsable_id_panics_witness :
    handle_get_request "PUT /users/abc HTTP/1.1" true true db0 = none ∧
    (handle_put_request (fun _ => none) (fun s => s) "PUT /users/abc HTTP/1.1" true true db0).1 = none ∧
    (handle_delete_request "PUT /users/abc HTTP/1.1" true true db0).1 = none :=
  C7_unparsable_id_panics (fun _ => none) (fun s => s) "PUT /users/abc HTTP/1.1" true true db0
    (by decide)

/-! ### Status and totality lemmas for the five handlers -/

/-- The list-all handler only ever answers with the 200 or 500 status
line. -/
theorem status_of_get_all {connOk qOk : Bool} {db : DB} {p : String × String}
    (h : handle_get_all_users_request connOk qOk db = some p) :
    p.1 = OK_RESPONSE ∨ p.1 = INTERNAL_SERVER_ERROR := by
  unfold handle_get_all_users_request at h
  cases connOk <;> cases qOk <;> simp_all
  · exact Or.inr (congrArg Prod.fst h.symm)
  · exact Or.inr (congrArg Prod.fst h.symm)
  · exact Or.inl (congrArg Prod.fst h.symm)

/-- The get handler only ever answers with the 200, 404 or 500 status
line. -/
theorem status_of_get {req : String} {connOk qOk : Bool} {db : DB} {p : String × String}
    (h : handle_get_request req connOk qOk db = some p) :
    p.1 = OK_RESPONSE ∨ p.1 = NOT_FOUND ∨ p.1 = INTERNAL_SERVER_ERROR := by
  unfold handle_get_request at h
  split at h
  · exact absurd h (by simp)
  · split at h
    · split at h
      · exact Or.inl (congrArg Prod.fst (Option.some.inj h).symm)
      · exact Or.inr (Or.inl (congrArg Prod.fst (Option.some.inj h).symm))
    · exact Or.inr (Or.inr (congrArg Prod.fst (Option.some.inj h).symm))

/-- The create handler only ever answers with the 200 or 500 status
line. -/
theorem status_of_post {dec : String → Option User} {req : String} {connOk qOk : Bool}
    {db : DB} {p : String × String}
    (h : (handle_post_request dec req connOk qOk db).1 = some p) :
    p.1 = OK_RESPONSE ∨ p.1 = INTERNAL_SERVER_ERROR := by
  unfold handle_post_request at h
  split at h
  · split at h
    · exact Or.inl (congrArg Prod.fst (Option.some.inj h).symm)
    · exact absurd h (by simp)
  · exact Or.inr (congrArg Prod.fst (Option.some.inj h).symm)

/-- The update handler only ever answers with the 200 or 500 status
line; in particular it never answers 404. -/
theorem status_of_put {dec : String → Option User} {hash : String → String} {req : String}
    {connOk qOk : Bool} {db : DB} {p : String × String}
    (h : (handle_put_request dec hash req connOk qOk db).1 = some p) :
    p.1 = OK_RESPONSE ∨ p.1 = INTERNAL_SERVER_ERROR := by
  unfold handle_put_request at h
  split at h
  · exact absurd h (by simp)
  · split at h
    · dsimp only at h
      split at h
      · exact Or.inl (congrArg Prod.fst (Option.some.inj h).symm)
      · exact absurd h (by simp)
    · exact Or.inr (congrArg Prod.fst (Option.some.inj h).symm)

/-- The delete handler only ever answers with the 200, 404 or 500
status line. -/
theorem status_of_delete {req : String} {connOk qOk : Bool} {db : DB} {p : String × String}
    (h : (handle_delete_request req connOk qOk db).1 = some p) :
    p.1 = OK_RESPONSE ∨ p.1 = NOT_FOUND ∨ p.1 = INTERNAL_SERVER_ERROR := by
  unfold handle_delete_request at h
  split at h
  · exact absurd h (by simp)
  · split at h
    · split at h
      · dsimp only at h
        split at h
        · exact Or.inr (Or.inl (congrArg Prod.fst (Option.some.inj h).symm))
        · exact Or.inl (congrArg Prod.fst (Option.some.inj h).symm)
      · exact absurd h (by simp)
    · exact Or.inr (Or.inr (congrArg Prod.fst (Option.some.inj h).symm))

/-- The list-all handler is total when the `SELECT` succeeds. -/
theorem total_get_all (connOk : Bool) (db : DB) :
    ∃ p, handle_get_all_users_request connOk true db = some p := by
  cases connOk <;> exact ⟨_, rfl⟩

/-- The get handler is total (for every query outcome) when the id
parses. -/
theorem total_get (req : String) (connOk qOk : Bool) (db : DB)
    (h : (parseI32 (get_id req)).isSome = true) :
    ∃ p, handle_get_request req connOk qOk db = some p := by
  obtain ⟨i, hi⟩ := Option.isSome_iff_exists.mp h
  cases connOk with
  | false => exact ⟨(INTERNAL_SERVER_ERROR, "Error"), by simp [handle_get_request, hi]⟩
  | true =>
    cases qOk with
    | false => exact ⟨(NOT_FOUND, "User not found"), by simp [handle_get_request, hi]⟩
    | true =>
      cases hq : queryOne db i with
      | none => exact ⟨(NOT_FOUND, "User not found"), by simp [handle_get_request, hi, hq]⟩
      | some row =>
        exact ⟨(OK_RESPONSE, userToJson (rowToUser row)), by simp [handle_get_request, hi, hq]⟩

/-- The create handler is total when the `INSERT` succeeds. -/
theorem total_post (dec : String → Option User) (req : String) (connOk : Bool) (db : DB) :
    ∃ p, (handle_post_request dec req connOk true db).1 = some p := by
  cases hu : get_user_request_body dec req with
  | none =>
    exact ⟨(INTERNAL_SERVER_ERROR, "Error creating user"), by simp [handle_post_request, hu]⟩
  | some user =>
    cases connOk with
    | false =>
      exact ⟨(INTERNAL_SERVER_ERROR, "Error creating user"), by simp [handle_post_request, hu]⟩
    | true => exact ⟨(OK_RESPONSE, userToJson user), by simp [handle_post_request, hu]⟩

/-- The update handler is total when the id parses and the `UPDATE`
succeeds. -/
theorem total_put (dec : String → Option User) (hash : String → String) (req : String)
    (connOk : Bool) (db : DB) (h : (parseI32 (get_id req)).isSome = true) :
    ∃ p, (handle_put_request dec hash req connOk true db).1 = some p := by
  obtain ⟨i, hi⟩ := Option.isSome_iff_exists.mp h
  cases hu : get_user_request_body dec req with
  | none =>
    exact ⟨(INTERNAL_SERVER_ERROR, "Error updating user"), by simp [handle_put_request, hi, hu]⟩
  | some user =>
    cases connOk with
    | false =>
      exact ⟨(INTERNAL_SERVER_ERROR, "Error updating user"), by simp [handle_put_request, hi, hu]⟩
    | true => exact ⟨(OK_RESPONSE, "User updated"), by simp [handle_put_request, hi, hu]⟩

/-- The delete handler is total when the id parses and the `DELETE`
succeeds. -/
theorem total_delete (req : String) (connOk : Bool) (db : DB)
    (h : (parseI32 (get_id req)).isSome = true) :
    ∃ p, (handle_delete_request req connOk true db).1 = some p := by
  obtain ⟨i, hi⟩ := Option.isSome_iff_exists.mp h
  cases connOk with
  | false =>
    exact ⟨(INTERNAL_SERVER_ERROR, "Error deleting user"), by simp [handle_delete_request, hi]⟩
  | true =>
    by_cases hz : (deleteUser db i).2 = 0
    · exact ⟨(NOT_FOUND, "User not found"), by simp [handle_delete_request, hi, hz]⟩
    · exact ⟨(OK_RESPONSE, "User deleted"), by simp [handle_delete_request, hi, hz]⟩

/-! ### C3: handler totality at the boundary -/

/-- C3 counterexample: handlers are not total for every input and every
store outcome — an unparsable id in the get handler and a failing
`SELECT` in the list-all handler both hit `.unwrap()` and panic
(`none`), converted to no response at all. -/
theorem C3_counterexample :
    handle_get_request "GET /users/abc HTTP/1.1" true true db0 = none ∧
    handle_get_all_users_request true false db0 = none := by
  exact ⟨by decide, rfl⟩

/-- C3 (amended): each handler returns a (status-line, body) pair whose
status line is one of the three fixed constants, provided the path id
parses as an integer (get/update/delete) and the single issued SQL
statement does not itself fail (list/create/update/delete); the get
handler is total for every query outcome.  Connection and decode
failures are always converted to responses; an unparsable id or a
failed statement panics instead. -/
theorem C3_handlers_total (dec : String → Option User) (hash : String → String)
    (req : String) (connOk qOk : Bool) (db : DB) :
    (∃ p, handle_get_all_users_request connOk true db = some p ∧
      (p.1 = OK_RESPONSE ∨ p.1 = NOT_FOUND ∨ p.1 = INTERNAL_SERVER_ERROR)) ∧
    ((parseI32 (get_id req)).isSome = true →
      ∃ p, handle_get_request req connOk qOk db = some p ∧
        (p.1 = OK_RESPONSE ∨ p.1 = NOT_FOUND ∨ p.1 = INTERNAL_SERVER_ERROR)) ∧
    (∃ p, (handle_post_request dec req connOk true db).1 = some p ∧
      (p.1 = OK_RESPONSE ∨ p.1 = INTERNAL_SERVER_ERROR)) ∧
    ((parseI32 (get_id req)).isSome = true →
      ∃ p, (handle_put_request dec hash req connOk true db).1 = some p ∧
        (p.1 = OK_RESPONSE ∨ p.1 = INTERNAL_SERVER_ERROR)) ∧
    ((parseI32 (get_id req)).isSome = true →
      ∃ p, (handle_delete_request req connOk true db).1 = some p ∧
        (p.1 = OK_RESPONSE ∨ p.1 = NOT_FOUND ∨ p.1 = INTERNAL_SERVER_ERROR)) := by
  refine ⟨?_, ?_, ?_, ?_, ?_⟩
  · obtain ⟨p, hp⟩ := total_get_all connOk db
    exact ⟨p, hp, (status_of_get_all hp).imp id Or.inr⟩
  · intro h
    obtain ⟨p, hp⟩ := total_get req connOk qOk db h
    exact ⟨p, hp, status_of_get hp⟩
  · obtain ⟨p, hp⟩ := total_post dec req connOk db
    exact ⟨p, hp, status_of_post hp⟩
  · intro h
    obtain ⟨p, hp⟩ := total_put dec hash req connOk db h
    exact ⟨p, hp, status_of_put hp⟩
  · intro h
    obtain ⟨p, hp⟩ := total_delete req connOk db h
    exact ⟨p, hp, status_of_delete hp⟩

/-- C3 witness: the amended totality at a concrete request, decoder,
hash, connection outcome and store. -/
theorem C3_handlers_total_witness :
    ((parseI32 (get_id "GET /users/1 HTTP/1.1")).isSome = true) ∧
    (∃ p, handle_get_request "GET /users/1 HTTP/1.1" true false db0 = some p ∧
      (p.1 = OK_RESPONSE ∨ p.1 = NOT_FOUND ∨ p.1 = INTERNAL_SERVER_ERROR)) :=
  ⟨by decide,
    (C3_handlers_total (fun _ => none) (fun s => s) "GET /users/1 HTTP/1.1" true false db0).2.1
      (by decide)⟩

/-! ### C5: get handler 404 / 500 semantics -/

/-- C5 counterexample: (a) an unparsable id does not yield 500 "Error"
but panics (`none`); (b) a query-level error (`qOk = false` with a
parsable id and reachable store) IS converted to 404 "User not found",
because the code maps every `query_one` error to 404. -/
theorem C5_counterexample :
    handle_get_request "GET /users/xyz HTTP/1.1" true true db0 = none ∧
    handle_get_request "GET /users/1 HTTP/1.1" true false db0 =
      some (NOT_FOUND, "User not found") := by
  exact ⟨by decide, by decide⟩

/-- C5 (amended): with a parsable id, the get handler returns 404
"User not found" exactly when the `query_one` call fails — whether
because the table has no unique row for the id or because the query
itself errs — and 500 "Error" exactly when the store connection fails;
a successful unique-row query yields the 200 serialization.  (An
unparsable id panics instead of producing any response.) -/
theorem C5_get_responses (req : String) (i : Int) (connOk qOk : Bool) (db : DB)
    (h : parseI32 (get_id req) = some i) :
    (connOk = false →
      handle_get_request req connOk qOk db = some (INTERNAL_SERVER_ERROR, "Error")) ∧
    (connOk = true →
      (handle_get_request req connOk qOk db = some (NOT_FOUND, "User not found") ↔
        (qOk = false ∨ queryOne db i = none))) ∧
    (connOk = true → qOk = true → ∀ row, queryOne db i = some row →
      handle_get_request req connOk qOk db = some (OK_RESPONSE, userToJson (rowToUser row))) := by
  refine ⟨?_, ?_, ?_⟩
  · intro hc
    subst hc
    simp [handle_get_request, h]
  · intro hc
    subst hc
    cases qOk with
    | false => simp [handle_get_request, h]
    | true =>
      cases hq : queryOne db i with
      | none => simp [handle_get_request, h, hq]
      | some row =>
        simp only [handle_get_request, h, hq, if_true]
        constructor
        · intro habs
          have : OK_RESPONSE = NOT_FOUND := congrArg Prod.fst (Option.some.inj habs)
          exact absurd this (by decide)
        · rintro (h1 | h2)
          · exact absurd h1 (by decide)
          · exact absurd h2 (by simp)
  · intro hc hq row hrow
    subst hc hq
    simp [handle_get_request, h, hrow]

/-- C5 witness: the amended characterization applied at a concrete
request against a store holding the row with id 1. -/
theorem C5_get_responses_witness :
    (handle_get_request "GET /users/1 HTTP/1.1" true true
        { rows := [{ id := 1, name := "Ann", email := "a@x.com", password := "pw" }], nextId := 2 }
      = some (NOT_FOUND, "User not found") ↔
      (true = false ∨ queryOne
        { rows := [{ id := 1, name := "Ann", email := "a@x.com", password := "pw" }], nextId := 2 }
        1 = none)) :=
  (C5_get_responses "GET /users/1 HTTP/1.1" 1 true true
      { rows := [{ id := 1, name := "Ann", email := "a@x.com", password := "pw" }], nextId := 2 }
      (by decide)).2.1 rfl

/-! ### C2: create handler response and round trip -/

/-- C2 counterexample: on the demo payload against a fresh store the
insert assigns id 1, but the 200 body serializes the decoded payload
itself (`id` null) — it is not the serialization of the inserted row,
so the returned `id` is null rather than non-null. -/
theorem C2_counterexample :
    (handle_post_request demoDec demoPostReq true true db0).1 =
      some (OK_RESPONSE, userToJson demoUser) ∧
    demoUser.id = none ∧
    (handle_post_request demoDec demoPostReq true true db0).2 =
      { rows := [{ id := 1, name := "Ann", email := "a@x.com", password := "pw" }], nextId := 2 } ∧
    userToJson demoUser ≠
      userToJson (rowToUser { id := 1, name := "Ann", email := "a@x.com", password := "pw" }) := by
  exact ⟨by decide, rfl, by decide, by decide⟩

/-- C2 (amended): for every decodable create payload handled with a
reachable store and a successful insert, the 200 body is the
serialization of the decoded payload itself (its `id` is whatever the
payload carried — null when absent; the store-assigned id is not
returned), and the inserted row is retrievable via a get for the
assigned id with name, email and password equal to the payload's. -/
theorem C2_create_round_trip (dec : String → Option User) (req : String) (u : User) (db : DB)
    (hdec : get_user_request_body dec req = some u)
    (hfresh : ∀ r ∈ db.rows, r.id ≠ db.nextId) :
    (handle_post_request dec req true true db).1 = some (OK_RESPONSE, userToJson u) ∧
    ∃ r, queryOne (handle_post_request dec req true true db).2 db.nextId = some r ∧
      r.name = u.name ∧ r.email = u.email ∧ r.password = u.password := by
  constructor
  · simp [handle_post_request, hdec]
  · refine ⟨{ id := db.nextId, name := u.name, email := u.email, password := u.password },
      ?_, rfl, rfl, rfl⟩
    have hnil : db.rows.filter (fun r => r.id == db.nextId) = [] :=
      List.filter_eq_nil_iff.mpr (fun r hr => by simp [hfresh r hr])
    simp [handle_post_request, hdec, queryOne, insertUser, List.filter_append, hnil]

/-- C2 witness: the amended round trip at the concrete demo payload
against the fresh store. -/
theorem C2_create_round_trip_witness :
    (handle_post_request demoDec demoPostReq true true db0).1 =
      some (OK_RESPONSE, userToJson demoUser) ∧
    ∃ r, queryOne (handle_post_request demoDec demoPostReq true true db0).2 db0.nextId = some r ∧
      r.name = demoUser.name ∧ r.email = demoUser.email ∧ r.password = demoUser.password :=
  C2_create_round_trip demoDec demoPostReq demoUser db0 (by decide) (by decide)

/-! ### C4: update handler password policy -/

/-- C4: in the update handler, for every decoded body (with a parsable
id, reachable store and successful statement): when the supplied
password's byte length is strictly below 20 the rows matching the id
store the one-way hash of the password, and when it is 20 or more they
store the password verbatim; name and email are stored as supplied in
both cases. -/
theorem C4_put_password_policy (dec : String → Option User) (hash : String → String)
    (req : String) (db : DB) (i : Int) (u : User)
    (hid : parseI32 (get_id req) = some i)
    (hu : get_user_request_body dec req = some u) :
    (u.password.utf8ByteSize < 20 →
      (handle_put_request dec hash req true true db).2.rows =
        db.rows.map (fun r => if r.id == i then
          { id := r.id, name := u.name, email := u.email, password := hash u.password } else r)) ∧
    (¬ u.password.utf8ByteSize < 20 →
      (handle_put_request dec hash req true true db).2.rows =
        db.rows.map (fun r => if r.id == i then
          { id := r.id, name := u.name, email := u.email, password := u.password } else r)) := by
  constructor <;> intro h <;> simp [handle_put_request, hid, hu, h, updateUser]

/-- C4 witness: the policy at a concrete short password ("pw", byte
length 2 < 20) against a store holding the row with id 1. -/
theorem C4_put_password_policy_witness :
    (demoUser.password.utf8ByteSize < 20 →
      (handle_put_request demoDec (fun s => "hashed:" ++ s)
          ("PUT /users/1 HTTP/1.1\r\nHost: localhost\r\n\r\n" ++ demoBody) true true
          { rows := [{ id := 1, name := "Bob", email := "b@x.com", password := "old" }], nextId := 2 }).2.rows =
        ([{ id := 1, name := "Bob", email := "b@x.com", password := "old" }] : List Row).map
          (fun r => if r.id == 1 then
            { id := r.id, name := demoUser.name, email := demoUser.email,
              password := "hashed:" ++ demoUser.password } else r)) ∧
    (¬ demoUser.password.utf8ByteSize < 20 →
      (handle_put_request demoDec (fun s => "hashed:" ++ s)
          ("PUT /users/1 HTTP/1.1\r\nHost: localhost\r\n\r\n" ++ demoBody) true true
          { rows := [{ id := 1, name := "Bob", email := "b@x.com", password := "old" }], nextId := 2 }).2.rows =
        ([{ id := 1, name := "Bob", email := "b@x.com", password := "old" }] : List Row).map
          (fun r => if r.id == 1 then
            { id := r.id, name := demoUser.name, email := demoUser.email,
              password := demoUser.password } else r)) :=
  C4_put_password_policy demoDec (fun s => "hashed:" ++ s)
    ("PUT /users/1 HTTP/1.1\r\nHost: localhost\r\n\r\n" ++ demoBody)
    { rows := [{ id := 1, name := "Bob", email := "b@x.com", password := "old" }], nextId := 2 }
    1 demoUser (by decide) (by decide)

/-! ### C10: update ignores the affected-row count -/

/-- C10: with a parsable id, a decodable body, a reachable store and a
successful statement, the update handler answers 200 "User updated" for
every store state — including one with no row for the id (zero rows
affected) — and no update response ever carries the 404 status line. -/
theorem C10_update_ignores_count (dec : String → Option User) (hash : String → String)
    (req : String) (i : Int) (u : User) (db : DB)
    (hid : parseI32 (get_id req) = some i)
    (hu : get_user_request_body dec req = some u) :
    (handle_put_request dec hash req true true db).1 = some (OK_RESPONSE, "User updated") ∧
    (∀ (dec2 : String → Option User) (hash2 : String → String) (req2 : String)
        (connOk qOk : Bool) (db2 : DB) (s b : String),
        (handle_put_request dec2 hash2 req2 connOk qOk db2).1 = some (s, b) →
        s ≠ NOT_FOUND) := by
  constructor
  · simp [handle_put_request, hid, hu]
  · intro dec2 hash2 req2 connOk qOk db2 s b hresp
    rcases status_of_put hresp with h | h
    · simp only [] at h; rw [show s = OK_RESPONSE from h]; decide
    · simp only [] at h; rw [show s = INTERNAL_SERVER_ERROR from h]; decide

/-- C10 witness: a concrete update against the empty store (zero rows
affected) still answers 200 "User updated". -/
theorem C10_update_ignores_count_witness :
    (handle_put_request demoDec (fun s => "hashed:" ++ s)
        ("PUT /users/1 HTTP/1.1\r\nHost: localhost\r\n\r\n" ++ demoBody) true true db0).1 =
      some (OK_RESPONSE, "User updated") :=
  (C10_update_ignores_count demoDec (fun s => "hashed:" ++ s)
      ("PUT /users/1 HTTP/1.1\r\nHost: localhost\r\n\r\n" ++ demoBody) 1 demoUser db0
      (by decide) (by decide)).1

/-! ### C6: delete handler semantics -/

/-- C6: with a parsable id, a reachable store and a successful
statement, the delete handler answers 404 "User not found" when the
`DELETE` affects zero rows (leaving the store unchanged), and 200
"User deleted" when it affects at least one row — after which a get
query for that id finds no row. -/
theorem C6_delete_semantics (req : String) (i : Int) (db : DB)
    (h : parseI32 (get_id req) = some i) :
    ((db.rows.filter (fun r => r.id == i)).length = 0 →
      handle_delete_request req true true db = (some (NOT_FOUND, "User not found"), db)) ∧
    (0 < (db.rows.filter (fun r => r.id == i)).length →
      (handle_delete_request req true true db).1 = some (OK_RESPONSE, "User deleted") ∧
      queryOne (handle_delete_request req true true db).2 i = none) := by
  constructor
  · intro h0
    have hnil : db.rows.filter (fun r => r.id == i) = [] := List.length_eq_zero.mp h0
    have hself : db.rows.filter (fun r => !(r.id == i)) = db.rows := by
      rw [List.filter_eq_self]
      intro a ha
      have := List.filter_eq_nil_iff.mp hnil a ha
      simpa using this
    simp [handle_delete_request, h, deleteUser, h0, hself]
  · intro hpos
    have hne : ¬ (db.rows.filter (fun r => r.id == i)).length = 0 := Nat.pos_iff_ne_zero.mp hpos
    have hgone : ((db.rows.filter (fun r => !(r.id == i))).filter (fun r => r.id == i)) = [] := by
      rw [List.filter_filter]
      have : (fun a : Row => (a.id == i) && !(a.id == i)) = fun _ => false := by
        funext a
        exact Bool.and_not_self (a.id == i)
      rw [this, List.filter_false]
    constructor
    · simp [handle_delete_request, h, deleteUser, hne]
    · simp [handle_delete_request, h, deleteUser, hne, queryOne, hgone]

/-- C6 witness: deleting id 1 from a store holding exactly that row
answers 200 "User deleted" and a subsequent get query finds no row. -/
theorem C6_delete_semantics_witness :
    0 < (dbAnn.rows.filter (fun r => r.id == 1)).length ∧
    (handle_delete_request "DELETE /users/1 HTTP/1.1" true true dbAnn).1 =
      some (OK_RESPONSE, "User deleted") ∧
    queryOne (handle_delete_request "DELETE /users/1 HTTP/1.1" true true dbAnn).2 1 = none :=
  ⟨by decide,
    (C6_delete_semantics "DELETE /users/1 HTTP/1.1" 1 dbAnn (by decide)).2 (by decide)⟩

/-! ### C8: response framing and Content-Type -/

/-- C8 counterexample: a concrete response written for an unmatched
request is the 404 status line followed by the body, and neither that
response nor the 404 status-line constant declares any Content-Type —
only the 200 constant does. -/
theorem C8_counterexample :
    (handle_client_response (fun _ => none) (fun s => s) "HELLO" true true db0).1 =
      some (NOT_FOUND ++ "Not Found") ∧
    occursIn ctJson (NOT_FOUND ++ "Not Found") = false ∧
    occursIn ctJson INTERNAL_SERVER_ERROR = false := by
  exact ⟨by decide, by decide, by decide⟩

/-- C8 (amended): every response written to the socket is one of the
three status-line constants followed immediately by the body text; the
200 constant declares `Content-Type: application/json`, while the 404
and 500 constants declare no Content-Type at all. -/
theorem C8_response_framing (dec : String → Option User) (hash : String → String)
    (req : String) (connOk qOk : Bool) (db : DB) (out : String)
    (h : (handle_client_response dec hash req connOk qOk db).1 = some out) :
    (∃ s b, out = s ++ b ∧
      (s = OK_RESPONSE ∨ s = NOT_FOUND ∨ s = INTERNAL_SERVER_ERROR)) ∧
    occursIn ctJson OK_RESPONSE = true ∧
    occursIn ctJson NOT_FOUND = false ∧
    occursIn ctJson INTERNAL_SERVER_ERROR = false := by
  refine ⟨?_, by decide, by decide, by decide⟩
  unfold handle_client_response at h
  cases hr : route_of req <;> rw [hr] at h
  case listAll =>
    simp only [Option.map_eq_some'] at h
    obtain ⟨p, hp, hout⟩ := h
    exact ⟨p.1, p.2, hout.symm, (status_of_get_all hp).imp id Or.inr⟩
  case getById =>
    simp only [Option.map_eq_some'] at h
    obtain ⟨p, hp, hout⟩ := h
    exact ⟨p.1, p.2, hout.symm, status_of_get hp⟩
  case create =>
    simp only [Option.map_eq_some'] at h
    obtain ⟨p, hp, hout⟩ := h
    exact ⟨p.1, p.2, hout.symm, (status_of_post hp).imp id Or.inr⟩
  case update =>
    simp only [Option.map_eq_some'] at h
    obtain ⟨p, hp, hout⟩ := h
    exact ⟨p.1, p.2, hout.symm, (status_of_put hp).imp id Or.inr⟩
  case delete =>
    simp only [Option.map_eq_some'] at h
    obtain ⟨p, hp, hout⟩ := h
    exact ⟨p.1, p.2, hout.symm, status_of_delete hp⟩
  case notFound =>
    exact ⟨NOT_FOUND, "Not Found", (Option.some.inj h).symm, Or.inr (Or.inl rfl)⟩

/-- C8 witness: the framing at the concrete list-all request against
the empty store (response `OK_RESPONSE ++ "[]"`). -/
theorem C8_response_framing_witness :
    (∃ s b, OK_RESPONSE ++ "[]" = s ++ b ∧
      (s = OK_RESPONSE ∨ s = NOT_FOUND ∨ s = INTERNAL_SERVER_ERROR)) ∧
    occursIn ctJson OK_RESPONSE = true ∧
    occursIn ctJson NOT_FOUND = false ∧
    occursIn ctJson INTERNAL_SERVER_ERROR = false :=
  C8_response_framing (fun _ => none) (fun s => s) "GET /users HTTP/1.1" true true db0
    (OK_RESPONSE ++ "[]") (by decide)
